import Mathlib

/-!
Verification of the dynamic query-construction layer of a data-access API
(policy and claims fact-table endpoints). The Python sources are shallowly
embedded: the two filter models (`PolicyFilters`, `ClaimsFilters`), the two
query builders (`build_policy_query`, `build_claims_query`), the row
serializer, the fetch-by-id services, and the fixed aggregation breakdowns.
A compiled query is modelled as the ordered list of directives produced by
the builder's chain of DataFrame calls.
-/

/-- A calendar date value, as produced by parsing `YYYY-MM-DD` query params. -/
structure PyDate where
  year : Nat
  month : Nat
  day : Nat
deriving DecidableEq, Repr

/-- A timestamp value as returned by the warehouse. -/
structure PyDateTime where
  date : PyDate
  hour : Nat
  minute : Nat
  second : Nat
deriving DecidableEq, Repr

/-- Warehouse / filter scalar values: integer, floating point (modelled as a
rational, no arithmetic is performed on it), string, boolean, date,
timestamp, null. -/
inductive Value where
  | int (i : Int)
  | num (q : Rat)
  | str (s : String)
  | bool (b : Bool)
  | date (d : PyDate)
  | timestamp (t : PyDateTime)
  | null
deriving DecidableEq, Repr

/-- A predicate directive: (column, operator, value-or-value-set). -/
inductive QPred where
  | eq (column : String) (v : Value)
  | contains (column : String) (s : String)
  | inSet (column : String) (vs : List String)
  | ge (column : String) (v : Value)
  | le (column : String) (v : Value)
deriving DecidableEq, Repr

/-- Sort order literal, `Literal["asc", "desc"]` in the pydantic models. -/
inductive SortOrder where
  | asc
  | desc
deriving DecidableEq, Repr

/-- One directive of a compiled query, mirroring one Snowpark DataFrame call
in the builder chain (`session.table`, `.filter`, `.select`, `.sort`,
`.limit`, `.offset`). -/
inductive Directive where
  | table (name : String)
  | filter (p : QPred)
  | select (cols : List String)
  | sort (column : String) (ord : SortOrder)
  | limit (n : Nat)
  | offset (n : Nat)
deriving DecidableEq, Repr

/-- `PolicyFilters` pydantic model: all filter fields optional; `limit`
defaults to 100 (bounds 1..1000), `offset` defaults to 0 (≥ 0), `sort_by`
defaults to `"POLICY_ID"`, `sort_order` defaults to `asc`. -/
structure PolicyFilters where
  policy_id : Option Int := none
  policy_dim_id : Option String := none
  insured_life_id : Option Int := none
  insured_state : Option String := none
  insured_city : Option String := none
  insured_zip : Option String := none
  policy_residence_state : Option String := none
  carrier_name : Option String := none
  environment : Option String := none
  from_date : Option PyDate := none
  to_date : Option PyDate := none
  min_annualized_premium : Option Rat := none
  max_annualized_premium : Option Rat := none
  claim_status_cd : Option String := none
  limit : Nat := 100
  offset : Nat := 0
  sort_by : Option String := some "POLICY_ID"
  sort_order : SortOrder := SortOrder.asc
  fields : Option String := none
deriving DecidableEq, Repr

/-- `ClaimsFilters` pydantic model: same pagination/sort/projection shape,
distinct filter fields, `sort_by` defaults to `"RFB_ID"`. -/
structure ClaimsFilters where
  rfb_id : Option Int := none
  policy_dim_id : Option String := none
  policy_number : Option String := none
  episode_of_benefit_id : Option Int := none
  claimant_name : Option String := none
  decision : Option String := none
  life_state : Option String := none
  issue_state : Option String := none
  policy_residence_state : Option String := none
  carrier_name : Option String := none
  from_snapshot_date : Option PyDate := none
  to_snapshot_date : Option PyDate := none
  from_certification_date : Option PyDate := none
  to_certification_date : Option PyDate := none
  claim_type_cd : Option Int := none
  limit : Nat := 100
  offset : Nat := 0
  sort_by : Option String := some "RFB_ID"
  sort_order : SortOrder := SortOrder.asc
  fields : Option String := none
deriving DecidableEq, Repr

/-- Pydantic validation constraints on pagination (`ge=1, le=1000` for limit;
offset ≥ 0 holds by the `Nat` type). -/
def PolicyFilters.Valid (f : PolicyFilters) : Prop :=
  1 ≤ f.limit ∧ f.limit ≤ 1000

/-- Pydantic validation constraints on claims pagination. -/
def ClaimsFilters.Valid (f : ClaimsFilters) : Prop :=
  1 ≤ f.limit ∧ f.limit ≤ 1000

/-- Python `str.split(sep)` with the one-character separator `','`, on the
character list: splitting an empty list yields one empty segment, matching
`"".split(',') == [""]`; empty segments between, before or after commas are
kept. -/
def splitCommaChars : List Char → List (List Char)
  | [] => [[]]
  | c :: rest =>
      if c = ',' then [] :: splitCommaChars rest
      else
        match splitCommaChars rest with
        | [] => [[c]]
        | g :: gs => (c :: g) :: gs

/-- Python `s.split(',')`. -/
def pySplitComma (s : String) : List String :=
  (splitCommaChars s.data).map String.mk

/-- Characters removed by Python `str.strip()` (the ASCII whitespace set). -/
def pyIsSpace (c : Char) : Bool :=
  c = ' ' || c = '\t' || c = '\n' || c = '\r' || c = '\x0b' || c = '\x0c'

/-- Drop leading stripped characters from a character list. -/
def dropSpace : List Char → List Char
  | [] => []
  | c :: rest => if pyIsSpace c then dropSpace rest else c :: rest

/-- Python `s.strip()`: remove whitespace from both ends. -/
def pyStrip (s : String) : String :=
  String.mk ((dropSpace ((dropSpace s.data).reverse)).reverse)

/-- Python `str.upper()` on one character (ASCII case mapping). -/
def pyCharUpper (c : Char) : Char :=
  if 'a' ≤ c ∧ c ≤ 'z' then Char.ofNat (c.toNat - 32) else c

/-- Python `s.upper()`. -/
def pyUpper (s : String) : String :=
  String.mk (s.data.map pyCharUpper)

/-- `if field is not None:` guard on a non-string field: Python truthiness of
a non-None int/float/date object is `True`, so presence is `isSome`. -/
def someOpt {α : Type} (o : Option α) (mk : α → Directive) : List Directive :=
  match o with
  | some v => [mk v]
  | none => []

/-- `if field:` guard on an optional string field: Python truthiness, i.e.
present iff non-None and non-empty. -/
def strOpt (o : Option String) (mk : String → Directive) : List Directive :=
  match o with
  | some s => if s = "" then [] else [mk s]
  | none => []

/-- `build_policy_query` from `app/utils/query_builder.py`: the ordered
directive list produced by the chain of conditional DataFrame calls. -/
def build_policy_query (f : PolicyFilters) : List Directive :=
  [Directive.table "POLICY_MONTHLY_SNAPSHOT_FACT"]
  ++ someOpt f.policy_id (fun v => Directive.filter (QPred.eq "POLICY_ID" (Value.int v)))
  ++ strOpt f.policy_dim_id (fun s => Directive.filter (QPred.eq "POLICY_DIM_ID" (Value.str s)))
  ++ someOpt f.insured_life_id (fun v => Directive.filter (QPred.eq "INSURED_LIFE_ID" (Value.int v)))
  ++ strOpt f.insured_state (fun s => Directive.filter (QPred.inSet "INSURED_STATE" (pySplitComma s)))
  ++ strOpt f.insured_city (fun s => Directive.filter (QPred.eq "INSURED_CITY" (Value.str s)))
  ++ strOpt f.insured_zip (fun s => Directive.filter (QPred.eq "INSURED_ZIP" (Value.str s)))
  ++ strOpt f.policy_residence_state
      (fun s => Directive.filter (QPred.inSet "POLICY_RESIDENCE_STATE" (pySplitComma s)))
  ++ strOpt f.carrier_name (fun s => Directive.filter (QPred.inSet "CARRIER_NAME" (pySplitComma s)))
  ++ strOpt f.environment (fun s => Directive.filter (QPred.eq "ENVIRONMENT" (Value.str s)))
  ++ someOpt f.from_date (fun d => Directive.filter (QPred.ge "ORIGINAL_EFFECTIVE_DT" (Value.date d)))
  ++ someOpt f.to_date (fun d => Directive.filter (QPred.le "ORIGINAL_EFFECTIVE_DT" (Value.date d)))
  ++ someOpt f.min_annualized_premium
      (fun v => Directive.filter (QPred.ge "ANNUALIZED_PREMIUM" (Value.num v)))
  ++ someOpt f.max_annualized_premium
      (fun v => Directive.filter (QPred.le "ANNUALIZED_PREMIUM" (Value.num v)))
  ++ strOpt f.claim_status_cd (fun s => Directive.filter (QPred.eq "CLAIM_STATUS_CD" (Value.str s)))
  ++ strOpt f.fields
      (fun s => Directive.select ((pySplitComma s).map (fun x => pyUpper (pyStrip x))))
  ++ strOpt f.sort_by (fun s => Directive.sort (pyUpper s) f.sort_order)
  ++ [Directive.limit f.limit]
  ++ (if 0 < f.offset then [Directive.offset f.offset] else [])

/-- `build_claims_query` from `app/utils/query_builder.py`. -/
def build_claims_query (f : ClaimsFilters) : List Directive :=
  [Directive.table "CLAIMS_TPA_FEE_WORKSHEET_SNAPSHOT_FACT"]
  ++ someOpt f.rfb_id (fun v => Directive.filter (QPred.eq "RFB_ID" (Value.int v)))
  ++ strOpt f.policy_dim_id (fun s => Directive.filter (QPred.eq "POLICY_DIM_ID" (Value.str s)))
  ++ strOpt f.policy_number (fun s => Directive.filter (QPred.eq "POLICY_NUMBER" (Value.str s)))
  ++ someOpt f.episode_of_benefit_id
      (fun v => Directive.filter (QPred.eq "EPISODE_OF_BENEFIT_ID" (Value.int v)))
  ++ strOpt f.claimant_name (fun s => Directive.filter (QPred.contains "CLAIMANTNAME" s))
  ++ strOpt f.decision (fun s => Directive.filter (QPred.eq "DECISION" (Value.str s)))
  ++ strOpt f.life_state (fun s => Directive.filter (QPred.inSet "LIFE_STATE" (pySplitComma s)))
  ++ strOpt f.issue_state (fun s => Directive.filter (QPred.inSet "ISSUE_STATE" (pySplitComma s)))
  ++ strOpt f.policy_residence_state
      (fun s => Directive.filter (QPred.inSet "POLICY_RESIDENCE_STATE" (pySplitComma s)))
  ++ strOpt f.carrier_name (fun s => Directive.filter (QPred.inSet "CARRIER_NAME" (pySplitComma s)))
  ++ someOpt f.from_snapshot_date
      (fun d => Directive.filter (QPred.ge "SNAPSHOT_DATE" (Value.date d)))
  ++ someOpt f.to_snapshot_date
      (fun d => Directive.filter (QPred.le "SNAPSHOT_DATE" (Value.date d)))
  ++ someOpt f.from_certification_date
      (fun d => Directive.filter (QPred.ge "CERTIFICATIONDATE" (Value.date d)))
  ++ someOpt f.to_certification_date
      (fun d => Directive.filter (QPred.le "CERTIFICATIONDATE" (Value.date d)))
  ++ someOpt f.claim_type_cd (fun v => Directive.filter (QPred.eq "CLAIM_TYPE_CD" (Value.int v)))
  ++ strOpt f.fields
      (fun s => Directive.select ((pySplitComma s).map (fun x => pyUpper (pyStrip x))))
  ++ strOpt f.sort_by (fun s => Directive.sort (pyUpper s) f.sort_order)
  ++ [Directive.limit f.limit]
  ++ (if 0 < f.offset then [Directive.offset f.offset] else [])

/-- The all-defaults `PolicyFilters()` instance. -/
def defaultPolicyFilters : PolicyFilters := {}

/-- The all-defaults `ClaimsFilters()` instance. -/
def defaultClaimsFilters : ClaimsFilters := {}

/-- Extract the predicate of a filter directive. -/
def predOf : Directive → Option QPred
  | Directive.filter p => some p
  | _ => none

/-- Extract a sort directive's content. -/
def sortOf : Directive → Option (String × SortOrder)
  | Directive.sort c o => some (c, o)
  | _ => none

/-- Extract a limit directive's content. -/
def limitOf : Directive → Option Nat
  | Directive.limit n => some n
  | _ => none

/-- Extract an offset directive's content. -/
def offsetOf : Directive → Option Nat
  | Directive.offset n => some n
  | _ => none

/-- Extract a projection directive's content. -/
def selectOf : Directive → Option (List String)
  | Directive.select cols => some cols
  | _ => none

/-- The predicates of a compiled query, in emission order. -/
def preds (q : List Directive) : List QPred :=
  q.filterMap predOf

/-- The sort directives of a compiled query. -/
def sortsOf (q : List Directive) : List (String × SortOrder) :=
  q.filterMap sortOf

/-- The limit directives of a compiled query. -/
def limitsOf (q : List Directive) : List Nat :=
  q.filterMap limitOf

/-- The offset directives of a compiled query. -/
def offsetsOf (q : List Directive) : List Nat :=
  q.filterMap offsetOf

/-- The projection directives of a compiled query. -/
def selectsOf (q : List Directive) : List (List String) :=
  q.filterMap selectOf

/-- Decimal digit character. -/
def digitChar (n : Nat) : Char := Char.ofNat (48 + n)

/-- Two-digit zero-padded decimal print, as in `date.isoformat()` month/day. -/
def pad2 (n : Nat) : String :=
  String.mk [digitChar (n / 10 % 10), digitChar (n % 10)]

/-- Four-digit zero-padded decimal print, as in `date.isoformat()` year
(Python years are bounded by 9999). -/
def pad4 (n : Nat) : String :=
  String.mk [digitChar (n / 1000 % 10), digitChar (n / 100 % 10),
             digitChar (n / 10 % 10), digitChar (n % 10)]

/-- Python `date.isoformat()`: `YYYY-MM-DD`. -/
def isoDate (d : PyDate) : String :=
  pad4 d.year ++ "-" ++ pad2 d.month ++ "-" ++ pad2 d.day

/-- Python `datetime.isoformat()` (no sub-second part): `YYYY-MM-DDTHH:MM:SS`. -/
def isoDateTime (t : PyDateTime) : String :=
  isoDate t.date ++ "T" ++ pad2 t.hour ++ ":" ++ pad2 t.minute ++ ":" ++ pad2 t.second

/-- A warehouse row: an ordered mapping from column name to scalar, as
produced by `row.as_dict()`. -/
abbrev Row := List (String × Value)

/-- `_serialize_value` shared by `PolicyService` and `ClaimsService` (the two
static methods are textually identical): a `datetime`/`date` value becomes
its `isoformat()` string, every other value is returned unchanged. -/
def serialize_value : Value → Value
  | Value.date d => Value.str (isoDate d)
  | Value.timestamp t => Value.str (isoDateTime t)
  | v => v

/-- `_serialize_row`: the dict comprehension
`{key: _serialize_value(val) for key, val in row_dict.items()}`, which keeps
every key in iteration order. -/
def serialize_row (row : Row) : Row :=
  row.map (fun p => (p.1, serialize_value p.2))

/-- Error kinds raised by the single-record fetch services (`ValueError`,
mapped by the route to HTTP 404). -/
inductive ServiceError where
  | notFound
deriving DecidableEq, Repr

/-- Value of a named column in a row (first binding wins). -/
def rowGet (r : Row) (c : String) : Option Value :=
  (r.find? (fun p => p.1 = c)).map Prod.snd

/-- The rows of `table` satisfying `column = v` (the `WHERE` clause of the
fetch-by-id SQL), in table order. -/
def whereEq (table : List Row) (column : String) (v : Value) : List Row :=
  table.filter (fun r => rowGet r column = some v)

/-- `SELECT * FROM table WHERE column = id LIMIT 1` as evaluated by the
executor: at most the first matching row. -/
def execFetchById (table : List Row) (column : String) (idv : Int) : List Row :=
  (whereEq table column (Value.int idv)).take 1

/-- `PolicyService.get_policy_by_id`: raise not-found when the query result
is empty, else serialize `result[0]`. -/
def get_policy_by_id (table : List Row) (policy_id : Int) : Except ServiceError Row :=
  match execFetchById table "POLICY_ID" policy_id with
  | [] => Except.error ServiceError.notFound
  | r :: _ => Except.ok (serialize_row r)

/-- `ClaimsService.get_claim_by_id`, same shape over the claims fact table. -/
def get_claim_by_id (table : List Row) (rfb_id : Int) : Except ServiceError Row :=
  match execFetchById table "RFB_ID" rfb_id with
  | [] => Except.error ServiceError.notFound
  | r :: _ => Except.ok (serialize_row r)

/-- Distinct grouping keys of a column, first occurrence first (`GROUP BY`). -/
def distinctKeys : List (Option String) → List (Option String)
  | [] => []
  | v :: rest => v :: (distinctKeys rest).filter (fun x => x ≠ v)

/-- `GROUP BY col` with `COUNT(*)` per group. -/
def groupCountRows (vals : List (Option String)) : List (Option String × Nat) :=
  (distinctKeys vals).map (fun k => (k, vals.count k))

/-- `ORDER BY COUNT DESC` comparison. -/
def countDescLe (a b : Option String × Nat) : Bool := b.2 ≤ a.2

/-- `ORDER BY COUNT DESC` over group rows. -/
def orderByCountDesc (g : List (Option String × Nat)) : List (Option String × Nat) :=
  g.mergeSort countDescLe

/-- Policy summary breakdown by state:
`GROUP BY INSURED_STATE ORDER BY COUNT DESC LIMIT 20` — note: no
`IS NOT NULL` filter in the source query. -/
def policies_by_state (vals : List (Option String)) : List (Option String × Nat) :=
  (orderByCountDesc (groupCountRows vals)).take 20

/-- Policy summary breakdown by carrier:
`GROUP BY CARRIER_NAME ORDER BY COUNT DESC` — uncapped, and again no
`IS NOT NULL` filter in the source query. -/
def policies_by_carrier (vals : List (Option String)) : List (Option String × Nat) :=
  orderByCountDesc (groupCountRows vals)

/-- Claims analytics decision breakdown:
`WHERE DECISION IS NOT NULL GROUP BY DECISION ORDER BY COUNT DESC`. -/
def decisions_breakdown (vals : List (Option String)) : List (Option String × Nat) :=
  orderByCountDesc (groupCountRows (vals.filter (fun v => v.isSome)))

/-- Claims analytics breakdown by state:
`WHERE LIFE_STATE IS NOT NULL GROUP BY LIFE_STATE ORDER BY COUNT DESC LIMIT 20`. -/
def claims_by_state (vals : List (Option String)) : List (Option String × Nat) :=
  (orderByCountDesc (groupCountRows (vals.filter (fun v => v.isSome)))).take 20

/-- Claims analytics breakdown by carrier:
`WHERE CARRIER_NAME IS NOT NULL GROUP BY CARRIER_NAME ORDER BY COUNT DESC`. -/
def claims_by_carrier (vals : List (Option String)) : List (Option String × Nat) :=
  orderByCountDesc (groupCountRows (vals.filter (fun v => v.isSome)))

/-- Python-truthiness presence of an optional string field. -/
def strPresent : Option String → Bool
  | some s => !(s == "")
  | none => false

/-- Number of present fields of a policy specification, with presence as the
spec defines it: non-null for numeric/date fields, non-null and non-empty
for string fields. -/
def policyPresentCount (f : PolicyFilters) : Nat :=
  (if f.policy_id.isSome then 1 else 0) +
  (if strPresent f.policy_dim_id then 1 else 0) +
  (if f.insured_life_id.isSome then 1 else 0) +
  (if strPresent f.insured_state then 1 else 0) +
  (if strPresent f.insured_city then 1 else 0) +
  (if strPresent f.insured_zip then 1 else 0) +
  (if strPresent f.policy_residence_state then 1 else 0) +
  (if strPresent f.carrier_name then 1 else 0) +
  (if strPresent f.environment then 1 else 0) +
  (if f.from_date.isSome then 1 else 0) +
  (if f.to_date.isSome then 1 else 0) +
  (if f.min_annualized_premium.isSome then 1 else 0) +
  (if f.max_annualized_premium.isSome then 1 else 0) +
  (if strPresent f.claim_status_cd then 1 else 0)

/-- Number of present fields of a claims specification. -/
def claimsPresentCount (f : ClaimsFilters) : Nat :=
  (if f.rfb_id.isSome then 1 else 0) +
  (if strPresent f.policy_dim_id then 1 else 0) +
  (if strPresent f.policy_number then 1 else 0) +
  (if f.episode_of_benefit_id.isSome then 1 else 0) +
  (if strPresent f.claimant_name then 1 else 0) +
  (if strPresent f.decision then 1 else 0) +
  (if strPresent f.life_state then 1 else 0) +
  (if strPresent f.issue_state then 1 else 0) +
  (if strPresent f.policy_residence_state then 1 else 0) +
  (if strPresent f.carrier_name then 1 else 0) +
  (if f.from_snapshot_date.isSome then 1 else 0) +
  (if f.to_snapshot_date.isSome then 1 else 0) +
  (if f.from_certification_date.isSome then 1 else 0) +
  (if f.to_certification_date.isSome then 1 else 0) +
  (if f.claim_type_cd.isSome then 1 else 0)

/-- Whether a predicate is the substring-contains kind. -/
def QPred.isContains : QPred → Bool
  | QPred.contains _ _ => true
  | _ => false

theorem filterMap_someOpt_none {α β : Type} (g : Directive → Option β) (o : Option α)
    (mk : α → Directive) (h : ∀ v, g (mk v) = none) :
    (someOpt o mk).filterMap g = [] := by
  cases o <;> simp [someOpt, h]

theorem filterMap_someOpt_some {α β : Type} (g : Directive → Option β) (o : Option α)
    (mk : α → Directive) (b : α → β) (h : ∀ v, g (mk v) = some (b v)) :
    (someOpt o mk).filterMap g = (o.map b).toList := by
  cases o <;> simp [someOpt, h]

theorem filterMap_strOpt_none {β : Type} (g : Directive → Option β) (o : Option String)
    (mk : String → Directive) (h : ∀ s, g (mk s) = none) :
    (strOpt o mk).filterMap g = [] := by
  cases o with
  | none => simp [strOpt]
  | some s =>
      simp only [strOpt]
      split <;> simp [h]

theorem filterMap_strOpt_some {β : Type} (g : Directive → Option β) (o : Option String)
    (mk : String → Directive) (b : String → β) (h : ∀ s, g (mk s) = some (b s)) :
    (strOpt o mk).filterMap g = (if strPresent o then [b o.iget] else []) := by
  cases o with
  | none => simp [strOpt, strPresent]
  | some s =>
      simp only [strOpt, strPresent]
      split <;> simp_all [h]

theorem length_toList_map {α β : Type} (o : Option α) (b : α → β) :
    ((o.map b).toList).length = if o.isSome then 1 else 0 := by
  cases o <;> simp

theorem length_if_strPresent {β : Type} (o : Option String) (x : List β) :
    (if strPresent o then x else []).length = if strPresent o then x.length else 0 := by
  split <;> simp

theorem preds_someOpt_filter {α : Type} (o : Option α) (mk : α → QPred) :
    (someOpt o (fun v => Directive.filter (mk v))).filterMap predOf = (o.map mk).toList := by
  cases o <;> simp [someOpt, predOf]

theorem preds_strOpt_filter (o : Option String) (mk : String → QPred) :
    (strOpt o (fun s => Directive.filter (mk s))).filterMap predOf =
      (if strPresent o then [mk o.iget] else []) := by
  cases o with
  | none => simp [strOpt, strPresent]
  | some s =>
      simp only [strOpt, strPresent]
      split <;> simp_all [predOf]

theorem sortOf_someOpt_filter {α : Type} (o : Option α) (mk : α → QPred) :
    (someOpt o (fun v => Directive.filter (mk v))).filterMap sortOf = [] := by
  cases o <;> simp [someOpt, sortOf]

theorem sortOf_strOpt_filter (o : Option String) (mk : String → QPred) :
    (strOpt o (fun s => Directive.filter (mk s))).filterMap sortOf = [] := by
  cases o with
  | none => simp [strOpt]
  | some s =>
      simp only [strOpt]
      split <;> simp [sortOf]

theorem limitOf_someOpt_filter {α : Type} (o : Option α) (mk : α → QPred) :
    (someOpt o (fun v => Directive.filter (mk v))).filterMap limitOf = [] := by
  cases o <;> simp [someOpt, limitOf]

theorem limitOf_strOpt_filter (o : Option String) (mk : String → QPred) :
    (strOpt o (fun s => Directive.filter (mk s))).filterMap limitOf = [] := by
  cases o with
  | none => simp [strOpt]
  | some s =>
      simp only [strOpt]
      split <;> simp [limitOf]

theorem offsetOf_someOpt_filter {α : Type} (o : Option α) (mk : α → QPred) :
    (someOpt o (fun v => Directive.filter (mk v))).filterMap offsetOf = [] := by
  cases o <;> simp [someOpt, offsetOf]

theorem offsetOf_strOpt_filter (o : Option String) (mk : String → QPred) :
    (strOpt o (fun s => Directive.filter (mk s))).filterMap offsetOf = [] := by
  cases o with
  | none => simp [strOpt]
  | some s =>
      simp only [strOpt]
      split <;> simp [offsetOf]

theorem selectOf_someOpt_filter {α : Type} (o : Option α) (mk : α → QPred) :
    (someOpt o (fun v => Directive.filter (mk v))).filterMap selectOf = [] := by
  cases o <;> simp [someOpt, selectOf]

theorem selectOf_strOpt_filter (o : Option String) (mk : String → QPred) :
    (strOpt o (fun s => Directive.filter (mk s))).filterMap selectOf = [] := by
  cases o with
  | none => simp [strOpt]
  | some s =>
      simp only [strOpt]
      split <;> simp [selectOf]

theorem selectsOf_strOpt_select (o : Option String) (g : String → List String) :
    (strOpt o (fun s => Directive.select (g s))).filterMap selectOf =
      (if strPresent o then [g o.iget] else []) := by
  cases o with
  | none => simp [strOpt, strPresent]
  | some s =>
      simp only [strOpt, strPresent]
      split <;> simp_all [selectOf]

theorem predOf_strOpt_select (o : Option String) (g : String → List String) :
    (strOpt o (fun s => Directive.select (g s))).filterMap predOf = [] := by
  cases o with
  | none => simp [strOpt]
  | some s =>
      simp only [strOpt]
      split <;> simp [predOf]

theorem sortOf_strOpt_select (o : Option String) (g : String → List String) :
    (strOpt o (fun s => Directive.select (g s))).filterMap sortOf = [] := by
  cases o with
  | none => simp [strOpt]
  | some s =>
      simp only [strOpt]
      split <;> simp [sortOf]

theorem limitOf_strOpt_select (o : Option String) (g : String → List String) :
    (strOpt o (fun s => Directive.select (g s))).filterMap limitOf = [] := by
  cases o with
  | none => simp [strOpt]
  | some s =>
      simp only [strOpt]
      split <;> simp [limitOf]

theorem offsetOf_strOpt_select (o : Option String) (g : String → List String) :
    (strOpt o (fun s => Directive.select (g s))).filterMap offsetOf = [] := by
  cases o with
  | none => simp [strOpt]
  | some s =>
      simp only [strOpt]
      split <;> simp [offsetOf]

theorem sortsOf_strOpt_sort (o : Option String) (g : String → String) (ord : SortOrder) :
    (strOpt o (fun s => Directive.sort (g s) ord)).filterMap sortOf =
      (if strPresent o then [(g o.iget, ord)] else []) := by
  cases o with
  | none => simp [strOpt, strPresent]
  | some s =>
      simp only [strOpt, strPresent]
      split <;> simp_all [sortOf]

theorem predOf_strOpt_sort (o : Option String) (g : String → String) (ord : SortOrder) :
    (strOpt o (fun s => Directive.sort (g s) ord)).filterMap predOf = [] := by
  cases o with
  | none => simp [strOpt]
  | some s =>
      simp only [strOpt]
      split <;> simp [predOf]

theorem limitOf_strOpt_sort (o : Option String) (g : String → String) (ord : SortOrder) :
    (strOpt o (fun s => Directive.sort (g s) ord)).filterMap limitOf = [] := by
  cases o with
  | none => simp [strOpt]
  | some s =>
      simp only [strOpt]
      split <;> simp [limitOf]

theorem offsetOf_strOpt_sort (o : Option String) (g : String → String) (ord : SortOrder) :
    (strOpt o (fun s => Directive.sort (g s) ord)).filterMap offsetOf = [] := by
  cases o with
  | none => simp [strOpt]
  | some s =>
      simp only [strOpt]
      split <;> simp [offsetOf]

theorem selectOf_strOpt_sort (o : Option String) (g : String → String) (ord : SortOrder) :
    (strOpt o (fun s => Directive.sort (g s) ord)).filterMap selectOf = [] := by
  cases o with
  | none => simp [strOpt]
  | some s =>
      simp only [strOpt]
      split <;> simp [selectOf]

theorem offsetsOf_offset_piece (n : Nat) :
    (if 0 < n then [Directive.offset n] else []).filterMap offsetOf =
      (if 0 < n then [n] else []) := by
  split <;> simp [offsetOf]

theorem predOf_offset_piece (n : Nat) :
    (if 0 < n then [Directive.offset n] else []).filterMap predOf = [] := by
  split <;> simp [predOf]

theorem sortOf_offset_piece (n : Nat) :
    (if 0 < n then [Directive.offset n] else []).filterMap sortOf = [] := by
  split <;> simp [sortOf]

theorem limitOf_offset_piece (n : Nat) :
    (if 0 < n then [Directive.offset n] else []).filterMap limitOf = [] := by
  split <;> simp [limitOf]

theorem selectOf_offset_piece (n : Nat) :
    (if 0 < n then [Directive.offset n] else []).filterMap selectOf = [] := by
  split <;> simp [selectOf]

theorem preds_build_policy (f : PolicyFilters) :
    preds (build_policy_query f) =
      (f.policy_id.map (fun v => QPred.eq "POLICY_ID" (Value.int v))).toList
      ++ (if strPresent f.policy_dim_id then
            [QPred.eq "POLICY_DIM_ID" (Value.str f.policy_dim_id.iget)] else [])
      ++ (f.insured_life_id.map (fun v => QPred.eq "INSURED_LIFE_ID" (Value.int v))).toList
      ++ (if strPresent f.insured_state then
            [QPred.inSet "INSURED_STATE" (pySplitComma f.insured_state.iget)] else [])
      ++ (if strPresent f.insured_city then
            [QPred.eq "INSURED_CITY" (Value.str f.insured_city.iget)] else [])
      ++ (if strPresent f.insured_zip then
            [QPred.eq "INSURED_ZIP" (Value.str f.insured_zip.iget)] else [])
      ++ (if strPresent f.policy_residence_state then
            [QPred.inSet "POLICY_RESIDENCE_STATE" (pySplitComma f.policy_residence_state.iget)] else [])
      ++ (if strPresent f.carrier_name then
            [QPred.inSet "CARRIER_NAME" (pySplitComma f.carrier_name.iget)] else [])
      ++ (if strPresent f.environment then
            [QPred.eq "ENVIRONMENT" (Value.str f.environment.iget)] else [])
      ++ (f.from_date.map (fun d => QPred.ge "ORIGINAL_EFFECTIVE_DT" (Value.date d))).toList
      ++ (f.to_date.map (fun d => QPred.le "ORIGINAL_EFFECTIVE_DT" (Value.date d))).toList
      ++ (f.min_annualized_premium.map (fun v => QPred.ge "ANNUALIZED_PREMIUM" (Value.num v))).toList
      ++ (f.max_annualized_premium.map (fun v => QPred.le "ANNUALIZED_PREMIUM" (Value.num v))).toList
      ++ (if strPresent f.claim_status_cd then
            [QPred.eq "CLAIM_STATUS_CD" (Value.str f.claim_status_cd.iget)] else []) := by
  simp only [build_policy_query, preds, List.filterMap_append,
    preds_someOpt_filter, preds_strOpt_filter, predOf_strOpt_select, predOf_strOpt_sort,
    predOf_offset_piece]
  simp [predOf]

theorem preds_build_claims (f : ClaimsFilters) :
    preds (build_claims_query f) =
      (f.rfb_id.map (fun v => QPred.eq "RFB_ID" (Value.int v))).toList
      ++ (if strPresent f.policy_dim_id then
            [QPred.eq "POLICY_DIM_ID" (Value.str f.policy_dim_id.iget)] else [])
      ++ (if strPresent f.policy_number then
            [QPred.eq "POLICY_NUMBER" (Value.str f.policy_number.iget)] else [])
      ++ (f.episode_of_benefit_id.map
            (fun v => QPred.eq "EPISODE_OF_BENEFIT_ID" (Value.int v))).toList
      ++ (if strPresent f.claimant_name then
            [QPred.contains "CLAIMANTNAME" f.claimant_name.iget] else [])
      ++ (if strPresent f.decision then
            [QPred.eq "DECISION" (Value.str f.decision.iget)] else [])
      ++ (if strPresent f.life_state then
            [QPred.inSet "LIFE_STATE" (pySplitComma f.life_state.iget)] else [])
      ++ (if strPresent f.issue_state then
            [QPred.inSet "ISSUE_STATE" (pySplitComma f.issue_state.iget)] else [])
      ++ (if strPresent f.policy_residence_state then
            [QPred.inSet "POLICY_RESIDENCE_STATE" (pySplitComma f.policy_residence_state.iget)] else [])
      ++ (if strPresent f.carrier_name then
            [QPred.inSet "CARRIER_NAME" (pySplitComma f.carrier_name.iget)] else [])
      ++ (f.from_snapshot_date.map (fun d => QPred.ge "SNAPSHOT_DATE" (Value.date d))).toList
      ++ (f.to_snapshot_date.map (fun d => QPred.le "SNAPSHOT_DATE" (Value.date d))).toList
      ++ (f.from_certification_date.map
            (fun d => QPred.ge "CERTIFICATIONDATE" (Value.date d))).toList
      ++ (f.to_certification_date.map
            (fun d => QPred.le "CERTIFICATIONDATE" (Value.date d))).toList
      ++ (f.claim_type_cd.map (fun v => QPred.eq "CLAIM_TYPE_CD" (Value.int v))).toList := by
  simp only [build_claims_query, preds, List.filterMap_append,
    preds_someOpt_filter, preds_strOpt_filter, predOf_strOpt_select, predOf_strOpt_sort,
    predOf_offset_piece]
  simp [predOf]

theorem sortsOf_build_policy (f : PolicyFilters) :
    sortsOf (build_policy_query f) =
      (if strPresent f.sort_by then [(pyUpper f.sort_by.iget, f.sort_order)] else []) := by
  simp only [build_policy_query, sortsOf, List.filterMap_append,
    sortOf_someOpt_filter, sortOf_strOpt_filter, sortOf_strOpt_select, sortsOf_strOpt_sort,
    sortOf_offset_piece]
  simp [sortOf]

theorem limitsOf_build_policy (f : PolicyFilters) :
    limitsOf (build_policy_query f) = [f.limit] := by
  simp only [build_policy_query, limitsOf, List.filterMap_append,
    limitOf_someOpt_filter, limitOf_strOpt_filter, limitOf_strOpt_select, limitOf_strOpt_sort,
    limitOf_offset_piece]
  simp [limitOf]

theorem offsetsOf_build_policy (f : PolicyFilters) :
    offsetsOf (build_policy_query f) = (if 0 < f.offset then [f.offset] else []) := by
  simp only [build_policy_query, offsetsOf, List.filterMap_append,
    offsetOf_someOpt_filter, offsetOf_strOpt_filter, offsetOf_strOpt_select,
    offsetOf_strOpt_sort, offsetsOf_offset_piece]
  simp [offsetOf]

theorem selectsOf_build_policy (f : PolicyFilters) :
    selectsOf (build_policy_query f) =
      (if strPresent f.fields then
        [(pySplitComma f.fields.iget).map (fun x => pyUpper (pyStrip x))] else []) := by
  simp only [build_policy_query, selectsOf, List.filterMap_append,
    selectOf_someOpt_filter, selectOf_strOpt_filter, selectsOf_strOpt_select,
    selectOf_strOpt_sort, selectOf_offset_piece]
  simp [selectOf]

theorem sortsOf_build_claims (f : ClaimsFilters) :
    sortsOf (build_claims_query f) =
      (if strPresent f.sort_by then [(pyUpper f.sort_by.iget, f.sort_order)] else []) := by
  simp only [build_claims_query, sortsOf, List.filterMap_append,
    sortOf_someOpt_filter, sortOf_strOpt_filter, sortOf_strOpt_select, sortsOf_strOpt_sort,
    sortOf_offset_piece]
  simp [sortOf]

theorem limitsOf_build_claims (f : ClaimsFilters) :
    limitsOf (build_claims_query f) = [f.limit] := by
  simp only [build_claims_query, limitsOf, List.filterMap_append,
    limitOf_someOpt_filter, limitOf_strOpt_filter, limitOf_strOpt_select, limitOf_strOpt_sort,
    limitOf_offset_piece]
  simp [limitOf]

theorem offsetsOf_build_claims (f : ClaimsFilters) :
    offsetsOf (build_claims_query f) = (if 0 < f.offset then [f.offset] else []) := by
  simp only [build_claims_query, offsetsOf, List.filterMap_append,
    offsetOf_someOpt_filter, offsetOf_strOpt_filter, offsetOf_strOpt_select,
    offsetOf_strOpt_sort, offsetsOf_offset_piece]
  simp [offsetOf]

theorem selectsOf_build_claims (f : ClaimsFilters) :
    selectsOf (build_claims_query f) =
      (if strPresent f.fields then
        [(pySplitComma f.fields.iget).map (fun x => pyUpper (pyStrip x))] else []) := by
  simp only [build_claims_query, selectsOf, List.filterMap_append,
    selectOf_someOpt_filter, selectOf_strOpt_filter, selectsOf_strOpt_select,
    selectOf_strOpt_sort, selectOf_offset_piece]
  simp [selectOf]

/-- C1: the compiler emits exactly one predicate per present field (non-null,
and non-empty for strings) and nothing for absent fields; the all-defaults
specification compiles to zero predicates, exactly the default sort,
limit 100 and no offset clause. -/
theorem C1_exactly_one_predicate_per_present_field :
    (∀ f : PolicyFilters, (preds (build_policy_query f)).length = policyPresentCount f)
    ∧ (∀ f : ClaimsFilters, (preds (build_claims_query f)).length = claimsPresentCount f)
    ∧ build_policy_query defaultPolicyFilters =
        [Directive.table "POLICY_MONTHLY_SNAPSHOT_FACT",
         Directive.sort "POLICY_ID" SortOrder.asc, Directive.limit 100]
    ∧ build_claims_query defaultClaimsFilters =
        [Directive.table "CLAIMS_TPA_FEE_WORKSHEET_SNAPSHOT_FACT",
         Directive.sort "RFB_ID" SortOrder.asc, Directive.limit 100] := by
  refine ⟨fun f => ?_, fun f => ?_, by decide, by decide⟩
  · rw [preds_build_policy]
    simp only [List.length_append, length_toList_map, length_if_strPresent,
      List.length_singleton, policyPresentCount]
  · rw [preds_build_claims]
    simp only [List.length_append, length_toList_map, length_if_strPresent,
      List.length_singleton, claimsPresentCount]

/-- C2 counterexample: the compiler does not trim multi-value segments — the
input `"CA, NY"` compiles to the value set `["CA", " NY"]`, keeping the
leading space, not the trimmed `["CA", "NY"]` the claim requires. -/
theorem C2_counterexample_no_trimming :
    preds (build_policy_query { insured_state := some "CA, NY" }) =
      [QPred.inSet "INSURED_STATE" ["CA", " NY"]]
    ∧ (" NY" : String) ≠ "NY"
    ∧ pyStrip " NY" = "NY" :=
  ⟨by decide, by decide, by decide⟩

/-- C2 (amended): a non-empty multi-value input is split on comma with each
segment taken as-is (no trimming); exactly one set-membership predicate is
emitted whose value set is the segments in the order given, with no
deduplication, and a single-element list keeps the set-membership form. -/
theorem C2_amended_multivalue_split (s : String) (hs : s ≠ "") :
    preds (build_policy_query { insured_state := some s }) =
      [QPred.inSet "INSURED_STATE" (pySplitComma s)]
    ∧ preds (build_policy_query { policy_residence_state := some s }) =
      [QPred.inSet "POLICY_RESIDENCE_STATE" (pySplitComma s)]
    ∧ preds (build_policy_query { carrier_name := some s }) =
      [QPred.inSet "CARRIER_NAME" (pySplitComma s)]
    ∧ preds (build_claims_query { life_state := some s }) =
      [QPred.inSet "LIFE_STATE" (pySplitComma s)]
    ∧ preds (build_claims_query { issue_state := some s }) =
      [QPred.inSet "ISSUE_STATE" (pySplitComma s)]
    ∧ preds (build_claims_query { policy_residence_state := some s }) =
      [QPred.inSet "POLICY_RESIDENCE_STATE" (pySplitComma s)]
    ∧ preds (build_claims_query { carrier_name := some s }) =
      [QPred.inSet "CARRIER_NAME" (pySplitComma s)]
    ∧ pySplitComma "A,B,A" = ["A", "B", "A"]
    ∧ pySplitComma "CA" = ["CA"] := by
  refine ⟨?_, ?_, ?_, ?_, ?_, ?_, ?_, by decide, by decide⟩ <;>
    first
    | (rw [preds_build_policy]; simp [strPresent, hs])
    | (rw [preds_build_claims]; simp [strPresent, hs])

/-- C2 witness: the amended statement at the concrete input `"A,B,C"`. -/
theorem C2_amended_multivalue_split_witness :
    preds (build_policy_query { insured_state := some "A,B,C" }) =
      [QPred.inSet "INSURED_STATE" (pySplitComma "A,B,C")]
    ∧ pySplitComma "A,B,C" = ["A", "B", "C"] :=
  ⟨(C2_amended_multivalue_split "A,B,C" (by decide)).1, by decide⟩

theorem mem_ite_singleton {α : Type} {c : Prop} [Decidable c] {x p : α}
    (h : p ∈ (if c then [x] else [])) : p = x ∧ c := by
  split at h <;> simp_all

theorem mem_map_toList {α β : Type} {o : Option α} {mk : α → β} {p : β}
    (h : p ∈ (o.map mk).toList) : ∃ v, o = some v ∧ p = mk v := by
  cases o <;> simp_all

/-- C3: the claims claimant-name filter compiles to a substring-contains
predicate; every other equality-style string filter, in both families,
compiles to exact equality; the two kinds are never swapped (no policy
predicate is ever contains, and every claims contains predicate comes from
the claimant-name field on column CLAIMANTNAME). -/
theorem C3_contains_vs_equality (s : String) (hs : s ≠ "") :
    preds (build_claims_query { claimant_name := some s }) =
      [QPred.contains "CLAIMANTNAME" s]
    ∧ preds (build_policy_query { policy_dim_id := some s }) =
      [QPred.eq "POLICY_DIM_ID" (Value.str s)]
    ∧ preds (build_policy_query { insured_city := some s }) =
      [QPred.eq "INSURED_CITY" (Value.str s)]
    ∧ preds (build_policy_query { insured_zip := some s }) =
      [QPred.eq "INSURED_ZIP" (Value.str s)]
    ∧ preds (build_policy_query { environment := some s }) =
      [QPred.eq "ENVIRONMENT" (Value.str s)]
    ∧ preds (build_policy_query { claim_status_cd := some s }) =
      [QPred.eq "CLAIM_STATUS_CD" (Value.str s)]
    ∧ preds (build_claims_query { policy_dim_id := some s }) =
      [QPred.eq "POLICY_DIM_ID" (Value.str s)]
    ∧ preds (build_claims_query { policy_number := some s }) =
      [QPred.eq "POLICY_NUMBER" (Value.str s)]
    ∧ preds (build_claims_query { decision := some s }) =
      [QPred.eq "DECISION" (Value.str s)]
    ∧ (∀ (f : PolicyFilters), ∀ p ∈ preds (build_policy_query f), p.isContains = false)
    ∧ (∀ (f : ClaimsFilters), ∀ p ∈ preds (build_claims_query f),
        p.isContains = true →
          ∃ t, f.claimant_name = some t ∧ t ≠ "" ∧ p = QPred.contains "CLAIMANTNAME" t) := by
  refine ⟨?_, ?_, ?_, ?_, ?_, ?_, ?_, ?_, ?_, ?_, ?_⟩
  case _ => rw [preds_build_claims]; simp [strPresent, hs]
  case _ => rw [preds_build_policy]; simp [strPresent, hs]
  case _ => rw [preds_build_policy]; simp [strPresent, hs]
  case _ => rw [preds_build_policy]; simp [strPresent, hs]
  case _ => rw [preds_build_policy]; simp [strPresent, hs]
  case _ => rw [preds_build_policy]; simp [strPresent, hs]
  case _ => rw [preds_build_claims]; simp [strPresent, hs]
  case _ => rw [preds_build_claims]; simp [strPresent, hs]
  case _ => rw [preds_build_claims]; simp [strPresent, hs]
  case _ =>
    intro f p hp
    rw [preds_build_policy] at hp
    simp only [List.mem_append] at hp
    rcases hp with ((((((((((((h|h)|h)|h)|h)|h)|h)|h)|h)|h)|h)|h)|h)|h <;>
      first
        | (obtain ⟨v, hv, rfl⟩ := mem_map_toList h; rfl)
        | (obtain ⟨rfl, hc⟩ := mem_ite_singleton h; rfl)
  case _ =>
    intro f p hp hc
    rw [preds_build_claims] at hp
    simp only [List.mem_append] at hp
    rcases hp with (((((((((((((h|h)|h)|h)|h)|h)|h)|h)|h)|h)|h)|h)|h)|h)|h <;>
      first
        | (obtain ⟨v, hv, rfl⟩ := mem_map_toList h; simp [QPred.isContains] at hc)
        | (obtain ⟨rfl, hcond⟩ := mem_ite_singleton h;
           first
           | (simp [QPred.isContains] at hc; done)
           | (refine ⟨f.claimant_name.iget, ?_, ?_, rfl⟩ <;>
               cases hcn : f.claimant_name <;> simp_all [strPresent]))

/-- C3 witness: the claimant-name input `"Smith"` compiles to the
substring-contains predicate, and the decision input `"Approved"` to exact
equality. -/
theorem C3_contains_vs_equality_witness :
    preds (build_claims_query { claimant_name := some "Smith" }) =
      [QPred.contains "CLAIMANTNAME" "Smith"]
    ∧ preds (build_claims_query { decision := some "Approved" }) =
      [QPred.eq "DECISION" (Value.str "Approved")] :=
  ⟨(C3_contains_vs_equality "Smith" (by decide)).1,
   (C3_contains_vs_equality "Approved" (by decide)).2.2.2.2.2.2.2.2.1⟩

/-- C4: a limit directive is always applied, exactly once, with the given
value (default 100); an offset directive appears iff offset > 0, exactly
once with the given value, and offset 0 compiles to no offset clause. -/
theorem C4_pagination :
    (∀ f : PolicyFilters, limitsOf (build_policy_query f) = [f.limit]
      ∧ offsetsOf (build_policy_query f) = (if 0 < f.offset then [f.offset] else []))
    ∧ (∀ f : ClaimsFilters, limitsOf (build_claims_query f) = [f.limit]
      ∧ offsetsOf (build_claims_query f) = (if 0 < f.offset then [f.offset] else []))
    ∧ defaultPolicyFilters.limit = 100
    ∧ defaultClaimsFilters.limit = 100
    ∧ offsetsOf (build_policy_query { offset := 0 }) = []
    ∧ offsetsOf (build_policy_query { offset := 25 }) = [25] :=
  ⟨fun f => ⟨limitsOf_build_policy f, offsetsOf_build_policy f⟩,
   fun f => ⟨limitsOf_build_claims f, offsetsOf_build_claims f⟩,
   rfl, rfl, by decide, by decide⟩

/-- C5 counterexample: a valid specification with `sort_by` explicitly null
(or the empty string, reachable as `?sort_by=`) compiles to a query with no
sort directive at all — the default column is not substituted, refuting
"no specification ever compiles to a query with no sort order". -/
theorem C5_counterexample_no_sort_directive :
    ({ sort_by := none } : PolicyFilters).Valid
    ∧ sortsOf (build_policy_query { sort_by := none }) = []
    ∧ ({ sort_by := some "" } : PolicyFilters).Valid
    ∧ sortsOf (build_policy_query { sort_by := some "" }) = []
    ∧ sortsOf (build_claims_query { sort_by := none }) = [] := by
  refine ⟨⟨?_, ?_⟩, by decide, ⟨?_, ?_⟩, by decide, by decide⟩ <;> decide

/-- C5 (amended): the compiled query carries at most one sort directive —
exactly one (the provided column upper-cased, with the provided direction)
when `sort_by` is non-null and non-empty, and none when `sort_by` is null or
empty; since the models default `sort_by` to the primary-key column, a
specification that does not touch `sort_by` compiles to the per-record-type
default sort (POLICY_ID / RFB_ID ascending). -/
theorem C5_amended_sort :
    (∀ f : PolicyFilters, sortsOf (build_policy_query f) =
      (if strPresent f.sort_by then [(pyUpper f.sort_by.iget, f.sort_order)] else []))
    ∧ (∀ f : ClaimsFilters, sortsOf (build_claims_query f) =
      (if strPresent f.sort_by then [(pyUpper f.sort_by.iget, f.sort_order)] else []))
    ∧ sortsOf (build_policy_query defaultPolicyFilters) = [("POLICY_ID", SortOrder.asc)]
    ∧ sortsOf (build_claims_query defaultClaimsFilters) = [("RFB_ID", SortOrder.asc)]
    ∧ (∀ f : PolicyFilters, (sortsOf (build_policy_query f)).length ≤ 1)
    ∧ (∀ f : ClaimsFilters, (sortsOf (build_claims_query f)).length ≤ 1) := by
  refine ⟨fun f => sortsOf_build_policy f, fun f => sortsOf_build_claims f,
    by decide, by decide, fun f => ?_, fun f => ?_⟩
  · rw [sortsOf_build_policy]; split <;> simp
  · rw [sortsOf_build_claims]; split <;> simp

/-- C6: a non-empty fields parameter compiles to exactly one projection
directive holding the comma-split, per-segment-stripped, upper-cased column
list; the compiled directive list splits into a projection-free prefix
followed by a predicate-free suffix containing the projection (projection is
applied after all predicates); and the emitted predicates are unchanged by
the fields parameter (projection never suppresses predicate evaluation). -/
theorem C6_projection (s : String) (hs : s ≠ "") :
    (∀ f : PolicyFilters, f.fields = some s →
      selectsOf (build_policy_query f) =
        [(pySplitComma s).map (fun x => pyUpper (pyStrip x))])
    ∧ (∀ f : ClaimsFilters, f.fields = some s →
      selectsOf (build_claims_query f) =
        [(pySplitComma s).map (fun x => pyUpper (pyStrip x))])
    ∧ (∀ f : PolicyFilters, ∃ pre post,
        build_policy_query f = pre ++ post
        ∧ selectsOf pre = [] ∧ preds post = [])
    ∧ (∀ (f : PolicyFilters) (fs : Option String),
        preds (build_policy_query { f with fields := fs }) = preds (build_policy_query f))
    ∧ (∀ (f : ClaimsFilters) (fs : Option String),
        preds (build_claims_query { f with fields := fs }) = preds (build_claims_query f)) := by
  refine ⟨fun f hf => ?_, fun f hf => ?_, fun f => ?_, fun f fs => ?_, fun f fs => ?_⟩
  · rw [selectsOf_build_policy, hf]; simp [strPresent, hs]
  · rw [selectsOf_build_claims, hf]; simp [strPresent, hs]
  · refine ⟨[Directive.table "POLICY_MONTHLY_SNAPSHOT_FACT"]
      ++ someOpt f.policy_id (fun v => Directive.filter (QPred.eq "POLICY_ID" (Value.int v)))
      ++ strOpt f.policy_dim_id (fun s => Directive.filter (QPred.eq "POLICY_DIM_ID" (Value.str s)))
      ++ someOpt f.insured_life_id
          (fun v => Directive.filter (QPred.eq "INSURED_LIFE_ID" (Value.int v)))
      ++ strOpt f.insured_state
          (fun s => Directive.filter (QPred.inSet "INSURED_STATE" (pySplitComma s)))
      ++ strOpt f.insured_city (fun s => Directive.filter (QPred.eq "INSURED_CITY" (Value.str s)))
      ++ strOpt f.insured_zip (fun s => Directive.filter (QPred.eq "INSURED_ZIP" (Value.str s)))
      ++ strOpt f.policy_residence_state
          (fun s => Directive.filter (QPred.inSet "POLICY_RESIDENCE_STATE" (pySplitComma s)))
      ++ strOpt f.carrier_name
          (fun s => Directive.filter (QPred.inSet "CARRIER_NAME" (pySplitComma s)))
      ++ strOpt f.environment (fun s => Directive.filter (QPred.eq "ENVIRONMENT" (Value.str s)))
      ++ someOpt f.from_date
          (fun d => Directive.filter (QPred.ge "ORIGINAL_EFFECTIVE_DT" (Value.date d)))
      ++ someOpt f.to_date
          (fun d => Directive.filter (QPred.le "ORIGINAL_EFFECTIVE_DT" (Value.date d)))
      ++ someOpt f.min_annualized_premium
          (fun v => Directive.filter (QPred.ge "ANNUALIZED_PREMIUM" (Value.num v)))
      ++ someOpt f.max_annualized_premium
          (fun v => Directive.filter (QPred.le "ANNUALIZED_PREMIUM" (Value.num v)))
      ++ strOpt f.claim_status_cd
          (fun s => Directive.filter (QPred.eq "CLAIM_STATUS_CD" (Value.str s))),
      strOpt f.fields
        (fun s => Directive.select ((pySplitComma s).map (fun x => pyUpper (pyStrip x))))
      ++ strOpt f.sort_by (fun s => Directive.sort (pyUpper s) f.sort_order)
      ++ [Directive.limit f.limit]
      ++ (if 0 < f.offset then [Directive.offset f.offset] else []), ?_, ?_, ?_⟩
    · simp only [build_policy_query, List.append_assoc]
    · simp only [selectsOf, List.filterMap_append, selectOf_someOpt_filter,
        selectOf_strOpt_filter]
      simp [selectOf]
    · simp only [preds, List.filterMap_append, predOf_strOpt_select, predOf_strOpt_sort,
        predOf_offset_piece]
      simp [predOf]
  · rw [preds_build_policy, preds_build_policy]
  · rw [preds_build_claims, preds_build_claims]

/-- C6 witness: the fields input `" a , b "` compiles to the stripped,
upper-cased projection list `["A", "B"]`. -/
theorem C6_projection_witness :
    selectsOf (build_policy_query { fields := some " a , b " }) =
      [(pySplitComma " a , b ").map (fun x => pyUpper (pyStrip x))]
    ∧ (pySplitComma " a , b ").map (fun x => pyUpper (pyStrip x)) = ["A", "B"] :=
  ⟨(C6_projection " a , b " (by decide)).1 _ rfl, by decide⟩

/-- C7: the single-record fetch fails with the not-found error kind iff the
executor's `LIMIT 1` result (equivalently, the set of matching rows) is
empty; when at least one row matches, it returns the first matching row's
serialized form — duplicate ids never raise an ambiguity error, the error
type has no such kind. -/
theorem C7_fetch_by_id :
    (∀ (table : List Row) (pid : Int),
      get_policy_by_id table pid = Except.error ServiceError.notFound ↔
        execFetchById table "POLICY_ID" pid = [])
    ∧ (∀ (table : List Row) (pid : Int),
      execFetchById table "POLICY_ID" pid = [] ↔
        whereEq table "POLICY_ID" (Value.int pid) = [])
    ∧ (∀ (table : List Row) (pid : Int) (r : Row) (rest : List Row),
        whereEq table "POLICY_ID" (Value.int pid) = r :: rest →
        get_policy_by_id table pid = Except.ok (serialize_row r))
    ∧ (∀ (table : List Row) (rid : Int),
      get_claim_by_id table rid = Except.error ServiceError.notFound ↔
        execFetchById table "RFB_ID" rid = [])
    ∧ (∀ (table : List Row) (rid : Int),
      execFetchById table "RFB_ID" rid = [] ↔
        whereEq table "RFB_ID" (Value.int rid) = [])
    ∧ (∀ (table : List Row) (rid : Int) (r : Row) (rest : List Row),
        whereEq table "RFB_ID" (Value.int rid) = r :: rest →
        get_claim_by_id table rid = Except.ok (serialize_row r)) := by
  refine ⟨fun table pid => ?_, fun table pid => ?_, fun table pid r rest h => ?_,
    fun table rid => ?_, fun table rid => ?_, fun table rid r rest h => ?_⟩
  · cases h : execFetchById table "POLICY_ID" pid <;> simp [get_policy_by_id, h]
  · simp [execFetchById, List.take_eq_nil_iff]
  · simp [get_policy_by_id, execFetchById, h]
  · cases h : execFetchById table "RFB_ID" rid <;> simp [get_claim_by_id, h]
  · simp [execFetchById, List.take_eq_nil_iff]
  · simp [get_claim_by_id, execFetchById, h]

/-- C7 witness: a table with two rows sharing POLICY_ID 7 — the fetch
returns the first matching row serialized and raises nothing; an empty
table yields not-found. -/
theorem C7_fetch_by_id_witness :
    get_policy_by_id
      [[("POLICY_ID", Value.int 7), ("CARRIER_NAME", Value.str "A")],
       [("POLICY_ID", Value.int 7), ("CARRIER_NAME", Value.str "B")]] 7 =
      Except.ok (serialize_row [("POLICY_ID", Value.int 7), ("CARRIER_NAME", Value.str "A")])
    ∧ (get_policy_by_id [] 7 = Except.error ServiceError.notFound ↔
        execFetchById [] "POLICY_ID" 7 = []) :=
  ⟨C7_fetch_by_id.2.2.1
      [[("POLICY_ID", Value.int 7), ("CARRIER_NAME", Value.str "A")],
       [("POLICY_ID", Value.int 7), ("CARRIER_NAME", Value.str "B")]] 7
      [("POLICY_ID", Value.int 7), ("CARRIER_NAME", Value.str "A")]
      [[("POLICY_ID", Value.int 7), ("CARRIER_NAME", Value.str "B")]] (by rfl),
   C7_fetch_by_id.1 [] 7⟩

/-- C8: the row serializer maps every date or timestamp value to its
ISO-8601 string, leaves every other value (including null) unchanged, and
passes every column through with key and order preserved, whatever the
row's shape. -/
theorem C8_serializer :
    (∀ row : Row, (serialize_row row).map Prod.fst = row.map Prod.fst)
    ∧ (∀ row : Row, serialize_row row = row.map (fun p => (p.1, serialize_value p.2)))
    ∧ (∀ d, serialize_value (Value.date d) = Value.str (isoDate d))
    ∧ (∀ t, serialize_value (Value.timestamp t) = Value.str (isoDateTime t))
    ∧ serialize_value Value.null = Value.null
    ∧ (∀ i, serialize_value (Value.int i) = Value.int i)
    ∧ (∀ q, serialize_value (Value.num q) = Value.num q)
    ∧ (∀ s, serialize_value (Value.str s) = Value.str s)
    ∧ (∀ b, serialize_value (Value.bool b) = Value.bool b)
    ∧ serialize_value (Value.date ⟨2024, 3, 15⟩) = Value.str "2024-03-15"
    ∧ serialize_row [("EXTRA_COL", Value.null), ("D", Value.date ⟨2024, 3, 15⟩)] =
        [("EXTRA_COL", Value.null), ("D", Value.str "2024-03-15")] := by
  refine ⟨fun row => ?_, fun row => rfl, fun d => rfl, fun t => rfl, rfl,
    fun i => rfl, fun q => rfl, fun s => rfl, fun b => rfl, by decide, by decide⟩
  simp [serialize_row]

theorem countDescLe_trans : ∀ a b c : Option String × Nat,
    countDescLe a b = true → countDescLe b c = true → countDescLe a c = true := by
  intro a b c hab hbc
  simp only [countDescLe, decide_eq_true_eq] at *
  omega

theorem countDescLe_total : ∀ a b : Option String × Nat,
    (countDescLe a b || countDescLe b a) = true := by
  intro a b
  simp only [countDescLe, Bool.or_eq_true, decide_eq_true_eq]
  omega

theorem pairwise_orderByCountDesc (g : List (Option String × Nat)) :
    (orderByCountDesc g).Pairwise (fun a b => b.2 ≤ a.2) := by
  have h := List.sorted_mergeSort countDescLe_trans countDescLe_total g
  exact h.imp (by intro a b hab; simpa [countDescLe] using hab)

theorem mem_distinctKeys_iff (x : Option String) (l : List (Option String)) :
    x ∈ distinctKeys l ↔ x ∈ l := by
  induction l with
  | nil => simp [distinctKeys]
  | cons v rest ih =>
      simp only [distinctKeys, List.mem_cons, List.mem_filter]
      by_cases hx : x = v <;> simp_all

theorem mem_orderByCountDesc_iff (p : Option String × Nat) (g : List (Option String × Nat)) :
    p ∈ orderByCountDesc g ↔ p ∈ g := List.mem_mergeSort

theorem mem_groupCountRows (k : Option String) (vals : List (Option String))
    (hk : k ∈ vals) : (k, vals.count k) ∈ groupCountRows vals :=
  List.mem_map_of_mem _ ((mem_distinctKeys_iff k vals).mpr hk)

/-- C9 counterexample: the policy by-carrier breakdown is uncapped, yet a
row with a null carrier produces a null group in its output (the source
query has no `IS NOT NULL` filter), refuting "every uncapped breakdown
returns all non-null groups (rows whose grouping value is null are
excluded)"; the claims decision breakdown, by contrast, does exclude the
null row. -/
theorem C9_counterexample_policy_null_group :
    ((none : Option String), 1) ∈ policies_by_carrier [none]
    ∧ decisions_breakdown [none] = [] := by
  constructor
  · rw [policies_by_carrier, mem_orderByCountDesc_iff]
    decide
  · simp [decisions_breakdown, orderByCountDesc, groupCountRows, distinctKeys,
      List.mergeSort_nil]

/-- C9 (amended): every breakdown is ordered descending by count and the one
by-state breakdown per record type is capped at 20 groups; the three claims
breakdowns exclude null-valued rows, and the uncapped claims breakdowns
return a group for every non-null value present; the policy breakdowns do
not exclude null rows, so a null group can appear in them (uncapped
by-carrier included). -/
theorem C9_amended_breakdowns :
    (∀ vals, (policies_by_state vals).length ≤ 20)
    ∧ (∀ vals, (claims_by_state vals).length ≤ 20)
    ∧ (∀ vals, (policies_by_state vals).Pairwise (fun a b => b.2 ≤ a.2))
    ∧ (∀ vals, (policies_by_carrier vals).Pairwise (fun a b => b.2 ≤ a.2))
    ∧ (∀ vals, (decisions_breakdown vals).Pairwise (fun a b => b.2 ≤ a.2))
    ∧ (∀ vals, (claims_by_state vals).Pairwise (fun a b => b.2 ≤ a.2))
    ∧ (∀ vals, (claims_by_carrier vals).Pairwise (fun a b => b.2 ≤ a.2))
    ∧ (∀ vals, ∀ p ∈ decisions_breakdown vals, p.1.isSome = true)
    ∧ (∀ vals, ∀ p ∈ claims_by_state vals, p.1.isSome = true)
    ∧ (∀ vals, ∀ p ∈ claims_by_carrier vals, p.1.isSome = true)
    ∧ (∀ vals s, some s ∈ vals → ∃ n, (some s, n) ∈ decisions_breakdown vals)
    ∧ (∀ vals s, some s ∈ vals → ∃ n, (some s, n) ∈ claims_by_carrier vals)
    ∧ (∀ vals, none ∈ vals → ∃ n, ((none : Option String), n) ∈ policies_by_carrier vals) := by
  have hsome : ∀ (vals : List (Option String)), ∀ p ∈
      orderByCountDesc (groupCountRows (vals.filter (fun v => v.isSome))),
      p.1.isSome = true := by
    intro vals p hp
    rw [mem_orderByCountDesc_iff] at hp
    obtain ⟨k, hk, rfl⟩ := List.mem_map.mp hp
    rw [mem_distinctKeys_iff] at hk
    exact (List.mem_filter.mp hk).2
  have hmemf : ∀ (vals : List (Option String)) (s : String), some s ∈ vals →
      ∃ n, (some s, n) ∈ orderByCountDesc (groupCountRows (vals.filter (fun v => v.isSome))) := by
    intro vals s hs
    refine ⟨(vals.filter (fun v => v.isSome)).count (some s), ?_⟩
    rw [mem_orderByCountDesc_iff]
    exact mem_groupCountRows _ _ (List.mem_filter.mpr ⟨hs, rfl⟩)
  refine ⟨fun vals => List.length_take_le 20 _,
    fun vals => List.length_take_le 20 _,
    fun vals => (pairwise_orderByCountDesc _).sublist (List.take_sublist 20 _),
    fun vals => pairwise_orderByCountDesc _,
    fun vals => pairwise_orderByCountDesc _,
    fun vals => (pairwise_orderByCountDesc _).sublist (List.take_sublist 20 _),
    fun vals => pairwise_orderByCountDesc _,
    fun vals p hp => hsome vals p hp,
    fun vals p hp => hsome vals p ((List.take_sublist 20 _).mem hp),
    fun vals p hp => hsome vals p hp,
    fun vals s hs => hmemf vals s hs,
    fun vals s hs => hmemf vals s hs,
    fun vals h0 => ?_⟩
  refine ⟨vals.count none, ?_⟩
  rw [policies_by_carrier, mem_orderByCountDesc_iff]
  exact mem_groupCountRows _ _ h0

/-- C9 witness: the amended statement applied to a concrete column with a
present non-null value and to one with a null value. -/
theorem C9_amended_breakdowns_witness :
    (∃ n, ((some "Approved" : Option String), n) ∈ decisions_breakdown [some "Approved"])
    ∧ (∃ n, ((none : Option String), n) ∈ policies_by_carrier [none, some "X"]) :=
  ⟨C9_amended_breakdowns.2.2.2.2.2.2.2.2.2.2.1 [some "Approved"] "Approved" (by decide),
   C9_amended_breakdowns.2.2.2.2.2.2.2.2.2.2.2.2 [none, some "X"] (by decide)⟩

/-- C10: a multi-value input whose comma-split contains an empty segment
(trailing comma, doubled comma) compiles to a set-membership predicate whose
value set contains the empty string — empty segments are neither dropped nor
merged. -/
theorem C10_empty_segments_kept (s : String) (hs : s ≠ "") (hmem : "" ∈ pySplitComma s) :
    ("" ∈ pySplitComma s
      ∧ preds (build_policy_query { insured_state := some s }) =
          [QPred.inSet "INSURED_STATE" (pySplitComma s)]
      ∧ preds (build_policy_query { policy_residence_state := some s }) =
          [QPred.inSet "POLICY_RESIDENCE_STATE" (pySplitComma s)]
      ∧ preds (build_policy_query { carrier_name := some s }) =
          [QPred.inSet "CARRIER_NAME" (pySplitComma s)]
      ∧ preds (build_claims_query { life_state := some s }) =
          [QPred.inSet "LIFE_STATE" (pySplitComma s)]
      ∧ preds (build_claims_query { issue_state := some s }) =
          [QPred.inSet "ISSUE_STATE" (pySplitComma s)])
    ∧ pySplitComma "CA," = ["CA", ""]
    ∧ pySplitComma "CA,,NY" = ["CA", "", "NY"] := by
  refine ⟨⟨hmem, ?_, ?_, ?_, ?_, ?_⟩, by decide, by decide⟩ <;>
    first
    | (rw [preds_build_policy]; simp [strPresent, hs])
    | (rw [preds_build_claims]; simp [strPresent, hs])

/-- C10 witness: the trailing-comma input `"CA,"` keeps its empty segment in
the emitted value set. -/
theorem C10_empty_segments_kept_witness :
    ("" ∈ pySplitComma "CA,"
      ∧ preds (build_policy_query { insured_state := some "CA," }) =
          [QPred.inSet "INSURED_STATE" (pySplitComma "CA,")]) :=
  ⟨(C10_empty_segments_kept "CA," (by decide) (by decide)).1.1,
   (C10_empty_segments_kept "CA," (by decide) (by decide)).1.2.1⟩

